import Mathlib

/-!
Shallow embedding of the widget core of wonky (src/settings.rs).

Modelling conventions:
- Rust u64 values are Nat (parsing enforces the 2^64 bound, as FromStr for u64 in Rust errors on overflow rather than wrapping).
- Instants are Nat nanosecond counts on a monotone clock; the elapsed
  duration between instant t and the current instant now is now - t
  (Nat truncated subtraction, matching the monotone clock: elapsed is
  never negative).  Duration::as_secs truncates to whole seconds.
- The external command capability is modelled by passing each update or
  init call the raw stdout text the spawned process would produce; the
  getStdout helper applies the trim the Rust code performs.
- Rust str::trim, str::split and str::split_whitespace are re-implemented
  structurally on the character list so that they compute in the kernel.
  Char.isWhitespace covers the ASCII whitespace the claims exercise.
- update and init return an UpdateResult: the post-call widget state
  (mutations performed before a parse error persist, as they do through
  a &mut self method in Rust), whether a command was actually spawned
  (invoked), and whether the call returned Ok (ok = false models a
  ParseError propagating out).
- Drawing is modelled as the list of positioned-text calls submitted to
  the viewport.  u16 subtraction is modelled as checked subtraction
  (none = underflow, which aborts a debug build); colors and the
  external meter-theme capability are not modelled, as no claim
  concerns them.
-/

/-- Nanoseconds per second, the divisor of Duration::as_secs. -/
def NANOS_PER_SEC : Nat := 1000000000

/-- Duration::as_secs on a nanosecond count: truncating division. -/
def durationAsSecs (nanos : Nat) : Nat := nanos / NANOS_PER_SEC

/-- Rust str::trim: drop leading and trailing whitespace. -/
def rustTrim (s : String) : String :=
  String.mk (((s.data.dropWhile Char.isWhitespace).reverse.dropWhile
    Char.isWhitespace).reverse)

/-- Rust str::split on a character predicate, on the character list:
always yields at least one piece and keeps empty pieces. -/
def splitCharsBy (p : Char → Bool) : List Char → List (List Char)
  | [] => [[]]
  | c :: cs =>
    if p c then [] :: splitCharsBy p cs
    else
      match splitCharsBy p cs with
      | [] => [[c]]
      | t :: ts => (c :: t) :: ts

/-- Rust str::split on a character predicate, as strings. -/
def rustSplit (p : Char → Bool) (s : String) : List String :=
  (splitCharsBy p s.data).map String.mk

/-- Rust str::split_whitespace: split on whitespace, dropping empty
pieces. -/
def rustSplitWhitespace (s : String) : List String :=
  (rustSplit Char.isWhitespace s).filter (fun t => t ≠ "")

/-- construct_command (settings.rs line 312): tokenize the configured
command string on whitespace; None when there is no first token,
otherwise the program and its argument list. -/
def constructCommand (command : String) : Option (String × List String) :=
  match rustSplitWhitespace command with
  | [] => none
  | cmd :: args => some (cmd, args)

/-- CommandExt::get_stdout (settings.rs line 137): captured stdout,
trimmed.  The raw text the process would print is the argument. -/
def getStdout (raw : String) : String := rustTrim raw

/-- Rust str::parse for bool: exactly the literals true and false. -/
def parseBool (s : String) : Except Unit Bool :=
  if s = "true" then Except.ok true
  else if s = "false" then Except.ok false
  else Except.error ()

/-- Rust str::parse for u64: optional leading plus sign, then one or
more ASCII digits, value below 2^64; anything else is an error. -/
def parseU64 (s : String) : Except Unit Nat :=
  let digits := match s.data with
    | '+' :: rest => rest
    | cs => cs
  if digits = [] then Except.error ()
  else if digits.all Char.isDigit then
    let v := digits.foldl (fun acc c => acc * 10 + (c.toNat - 48)) 0
    if v < 2 ^ 64 then Except.ok v else Except.error ()
  else Except.error ()

/-- Result of an update or init call: the post-call widget state, whether
a command was spawned, and whether the call returned Ok. -/
structure UpdateResult (σ : Type) where
  state : σ
  invoked : Bool
  ok : Bool
deriving Repr, DecidableEq

/-- Refresh scheduler check shared by Indicator::update and
Meter::update: timer.map(|t| t.elapsed().as_secs() > frequency)
.unwrap_or(true). -/
def shouldRefresh (timer : Option Nat) (frequency now : Nat) : Bool :=
  match timer with
  | some t => decide (frequency < durationAsSecs (now - t))
  | none => true

/-- Indicator widget (settings.rs line 51): configuration plus runtime
fields value, reading and timer. -/
structure Indicator where
  title : Option String
  command : String
  frequency : Nat
  right : Bool
  bottom : Bool
  value : Bool
  reading : String
  timer : Option Nat
deriving Repr, DecidableEq

/-- Indicator::update (settings.rs line 69): if the scheduler fires,
record the timer first, then, if the command tokenizes, parse the WHOLE
trimmed stdout as a bool into value; a parse failure propagates after
the timer was already set. -/
def Indicator.update (self : Indicator) (now : Nat) (raw : String) :
    UpdateResult Indicator :=
  if shouldRefresh self.timer self.frequency now then
    let timed : Indicator := { self with timer := some now }
    match constructCommand timed.command with
    | some _ =>
      match parseBool (getStdout raw) with
      | Except.ok v => ⟨{ timed with value := v }, true, true⟩
      | Except.error _ => ⟨timed, true, false⟩
    | none => ⟨timed, false, true⟩
  else ⟨self, false, true⟩

/-- Indicator::init (settings.rs line 85): if the command tokenizes,
split the trimmed stdout on single spaces, parse the first piece as a
bool into value and concatenate the remaining pieces into reading. -/
def Indicator.init (self : Indicator) (raw : String) :
    UpdateResult Indicator :=
  match constructCommand self.command with
  | none => ⟨self, false, true⟩
  | some _ =>
    match rustSplit (fun c => c = ' ') (getStdout raw) with
    | [] => ⟨self, true, true⟩
    | v :: rest =>
      match parseBool v with
      | Except.ok b =>
        ⟨{ self with value := b, reading := String.join rest }, true, true⟩
      | Except.error _ => ⟨self, true, false⟩

/-- Meter widget (settings.rs line 101): configuration plus runtime
fields max_value, current_value and timer.  The source field named with
the Rust keyword prefix is rendered pfx here. -/
structure Meter where
  title : String
  unit : String
  pfx : Option String
  max_command : String
  value_command : String
  frequency : Nat
  right : Bool
  bottom : Bool
  meter : Bool
  reading : Bool
  theme : Nat
  max_value : Nat
  current_value : Nat
  timer : Option Nat
deriving Repr, DecidableEq

/-- Meter::update (settings.rs line 171): same scheduler shape as
Indicator::update; parses the whole trimmed stdout of value_command as
u64 into current_value. -/
def Meter.update (self : Meter) (now : Nat) (raw : String) :
    UpdateResult Meter :=
  if shouldRefresh self.timer self.frequency now then
    let timed : Meter := { self with timer := some now }
    match constructCommand timed.value_command with
    | some _ =>
      match parseU64 (getStdout raw) with
      | Except.ok v => ⟨{ timed with current_value := v }, true, true⟩
      | Except.error _ => ⟨timed, true, false⟩
    | none => ⟨timed, false, true⟩
  else ⟨self, false, true⟩

/-- Meter::init (settings.rs line 187): if max_command tokenizes, parse
its trimmed stdout as u64 into max_value. -/
def Meter.init (self : Meter) (raw : String) : UpdateResult Meter :=
  match constructCommand self.max_command with
  | none => ⟨self, false, true⟩
  | some _ =>
    match parseU64 (getStdout raw) with
    | Except.ok v => ⟨{ self with max_value := v }, true, true⟩
    | Except.error _ => ⟨self, true, false⟩

/-- Checked u16 subtraction: none models the underflow that aborts a
debug build. -/
def checkedSub (a b : Nat) : Option Nat :=
  if b ≤ a then some (a - b) else none

/-- X offset, relative to the anchor x, of the meter value reading
(settings.rs line 231): width / 2 - 2 - len in u16 arithmetic. -/
def meterReadingOffset (width len : Nat) : Option Nat :=
  (checkedSub (width / 2) 2).bind (fun d => checkedSub d len)

/-- Width of the indicator background block (settings.rs line 290):
width / 2 - 2 in u16 arithmetic. -/
def indicatorBgWidth (width : Nat) : Option Nat :=
  checkedSub (width / 2) 2

/-- Meter value reading (settings.rs line 219): the format string
current, slash, max, unit. -/
def meterReadingString (current maxv : Nat) (unit : String) : String :=
  Nat.repr current ++ "/" ++ Nat.repr maxv ++ unit

/-- One positioned-text draw call submitted to the viewport. -/
structure DrawCall where
  text : String
  x : Nat
  y : Nat
deriving Repr, DecidableEq

/-- Draw calls of Meter::update_and_draw (settings.rs lines 212 to 244)
for the current state, given the viewport width and the anchor: title at
the anchor; if reading is set, the value reading right-aligned into the
half viewport at row y - 1 (saturating); if the title is nonempty, the
title again at row y - 1.  The trailing theme.draw call goes to the
external meter-theme capability and is not modelled.  none models the
u16 underflow abort of the reading position. -/
def Meter.drawCalls (self : Meter) (width x y : Nat) :
    Option (List DrawCall) :=
  let titleCall := DrawCall.mk self.title x y
  let titleAgain :=
    if self.title ≠ "" then [DrawCall.mk self.title x (y - 1)] else []
  if self.reading then
    let vr := meterReadingString self.current_value self.max_value self.unit
    match meterReadingOffset width (vr.utf8ByteSize % 65536) with
    | some off =>
      some (titleCall :: DrawCall.mk vr ((x + off) % 65536) (y - 1)
        :: titleAgain)
    | none => none
  else some (titleCall :: titleAgain)

/-- Draw calls of Indicator::draw_and_update (settings.rs lines 288 to
302) after the update: the background block of spaces at the anchor,
then the title at the anchor when configured.  none models the u16
underflow abort of the background width. -/
def Indicator.drawCalls (self : Indicator) (width x y : Nat) :
    Option (List DrawCall) :=
  match indicatorBgWidth width with
  | none => none
  | some n =>
    some (DrawCall.mk (String.mk (List.replicate n ' ')) x y ::
      match self.title with
      | some t => [DrawCall.mk t x y]
      | none => [])

/-- Concrete indicator used to evaluate the model on the parse examples. -/
def indC1 : Indicator :=
  ⟨some "bat", "batcheck", 5, false, false, false, "", none⟩

/-- Concrete indicator with interval 0 and a recorded timestamp. -/
def indC2 : Indicator :=
  ⟨none, "batcheck", 0, false, false, false, "", some 0⟩

/-- Concrete meter with the reading flag set. -/
def mC7 : Meter :=
  ⟨"RAM", "mb", none, "echo 16014", "memcheck", 1, true, false, true, true,
    1, 2048, 512, none⟩

/-- Concrete indicator with an empty command string. -/
def indC8 : Indicator := ⟨none, "", 5, false, false, false, "", none⟩

/-- Concrete meter whose command strings are both empty. -/
def mC8 : Meter :=
  ⟨"RAM", "mb", none, "", "", 1, true, false, true, true, 1, 0, 0, none⟩

-- ---------------------------------------------------------------------
-- Theorems
-- ---------------------------------------------------------------------

/-- C9: the meter reading x position width / 2 - 2 - len is free of u16
underflow exactly when width / 2 is at least len + 2, and the indicator
background width width / 2 - 2 is free of u16 underflow exactly when
width / 2 is at least 2; outside these bounds the subtraction
underflows. -/
theorem c9_u16_underflow_bounds :
    ∀ width len : Nat,
      ((meterReadingOffset width len).isSome ↔ 2 + len ≤ width / 2) ∧
      ((indicatorBgWidth width).isSome ↔ 2 ≤ width / 2) := by
  intro W L
  constructor
  · unfold meterReadingOffset checkedSub
    by_cases h2 : 2 ≤ W / 2
    · rw [if_pos h2]
      simp only [Option.some_bind]
      by_cases hL : L ≤ W / 2 - 2
      · rw [if_pos hL]
        simp only [Option.isSome_some, true_iff]
        omega
      · rw [if_neg hL]
        simp only [Option.isSome_none, Bool.false_eq_true, false_iff]
        omega
    · rw [if_neg h2]
      simp only [Option.none_bind, Option.isSome_none, Bool.false_eq_true,
        false_iff]
      omega
  · unfold indicatorBgWidth checkedSub
    by_cases h2 : 2 ≤ W / 2
    · rw [if_pos h2]
      simp [h2]
    · rw [if_neg h2]
      simp [h2]

/-- C9 witness: at width 80 and length 10 the reading offset is defined,
and at width 3 (half width 1) the background width underflows. -/
theorem c9_witness :
    (meterReadingOffset 80 10).isSome = true ∧
      ¬(indicatorBgWidth 3).isSome = true := by
  constructor
  · exact (c9_u16_underflow_bounds 80 10).1.mpr (by decide)
  · intro h
    exact absurd ((c9_u16_underflow_bounds 3 0).2.mp h) (by decide)

/-- C3 counterexample: at viewport width 80 and reading length 10 the
computed offset is 28, not 30 as the claim states. -/
theorem c3_counterexample :
    meterReadingOffset 80 10 = some 28 ∧
      meterReadingOffset 80 10 ≠ some 30 := by decide

/-- C3 amended: whenever the subtraction does not underflow, the x
offset relative to the anchor equals width / 2 - 2 - len with floor
division; in particular width 80 and length 10 give offset 28. -/
theorem c3_centering_formula :
    (∀ width len : Nat, 2 + len ≤ width / 2 →
      meterReadingOffset width len = some (width / 2 - 2 - len)) ∧
    meterReadingOffset 80 10 = some 28 := by
  constructor
  · intro W L h
    unfold meterReadingOffset checkedSub
    rw [if_pos (by omega : 2 ≤ W / 2)]
    simp only [Option.some_bind]
    rw [if_pos (by omega : L ≤ W / 2 - 2)]
  · decide

/-- C3 witness: the general formula applied at width 80, length 10. -/
theorem c3_witness : meterReadingOffset 80 10 = some (80 / 2 - 2 - 10) :=
  c3_centering_formula.1 80 10 (by decide)

/-- C7: when the reading flag is set, the drawn value reading is exactly
current value, slash, maximum value, unit concatenated in that order;
in particular current 512, maximum 2048, unit mb gives 512/2048mb. -/
theorem c7_reading_format :
    (∀ (m : Meter) (width x y : Nat) (cs : List DrawCall),
      m.reading = true → m.drawCalls width x y = some cs →
      ∃ p q, DrawCall.mk
        (meterReadingString m.current_value m.max_value m.unit) p q ∈ cs) ∧
    meterReadingString 512 2048 "mb" = "512/2048mb" := by
  constructor
  · intro m W x y cs hr hd
    unfold Meter.drawCalls at hd
    rw [hr] at hd
    simp only [if_true] at hd
    cases hmo : meterReadingOffset W
        ((meterReadingString m.current_value m.max_value m.unit).utf8ByteSize
          % 65536) with
    | none => rw [hmo] at hd; cases hd
    | some off =>
      rw [hmo] at hd
      simp only [Option.some.injEq] at hd
      subst hd
      exact ⟨(x + off) % 65536, y - 1,
        List.mem_cons_of_mem _ (List.mem_cons_self _ _)⟩
  · rfl

/-- C7 witness: the concrete meter with current 512, maximum 2048 and
unit mb draws the text 512/2048mb. -/
theorem c7_witness :
    ∃ cs, Meter.drawCalls mC7 80 0 1 = some cs ∧
      ∃ p q, DrawCall.mk "512/2048mb" p q ∈ cs := by
  refine ⟨[⟨"RAM", 0, 1⟩, ⟨"512/2048mb", 28, 0⟩, ⟨"RAM", 0, 0⟩],
    by decide, ?_⟩
  exact c7_reading_format.1 mC7 80 0 1
    [⟨"RAM", 0, 1⟩, ⟨"512/2048mb", 28, 0⟩, ⟨"RAM", 0, 0⟩] rfl (by decide)

/-- C10: Meter::update changes at most current_value and timer: the
maximum value and every configuration field is preserved; Meter::init
changes at most max_value, preserving current_value, timer and all
configuration fields. -/
theorem c10_update_frame :
    (∀ (m : Meter) (now : Nat) (raw : String),
      (m.update now raw).state.max_value = m.max_value ∧
      (m.update now raw).state.title = m.title ∧
      (m.update now raw).state.unit = m.unit ∧
      (m.update now raw).state.pfx = m.pfx ∧
      (m.update now raw).state.max_command = m.max_command ∧
      (m.update now raw).state.value_command = m.value_command ∧
      (m.update now raw).state.frequency = m.frequency ∧
      (m.update now raw).state.right = m.right ∧
      (m.update now raw).state.bottom = m.bottom ∧
      (m.update now raw).state.meter = m.meter ∧
      (m.update now raw).state.reading = m.reading ∧
      (m.update now raw).state.theme = m.theme) ∧
    (∀ (m : Meter) (raw : String),
      (m.init raw).state.current_value = m.current_value ∧
      (m.init raw).state.timer = m.timer ∧
      (m.init raw).state.title = m.title ∧
      (m.init raw).state.unit = m.unit ∧
      (m.init raw).state.pfx = m.pfx ∧
      (m.init raw).state.max_command = m.max_command ∧
      (m.init raw).state.value_command = m.value_command ∧
      (m.init raw).state.frequency = m.frequency ∧
      (m.init raw).state.right = m.right ∧
      (m.init raw).state.bottom = m.bottom ∧
      (m.init raw).state.meter = m.meter ∧
      (m.init raw).state.reading = m.reading ∧
      (m.init raw).state.theme = m.theme) := by
  constructor
  · intro m now raw
    cases hf : shouldRefresh m.timer m.frequency now with
    | false => simp [Meter.update, hf]
    | true =>
      cases hcc : constructCommand m.value_command with
      | none => simp [Meter.update, hf, hcc]
      | some pr =>
        cases hp : parseU64 (getStdout raw) with
        | ok v => simp [Meter.update, hf, hcc, hp]
        | error e => simp [Meter.update, hf, hcc, hp]
  · intro m raw
    cases hcc : constructCommand m.max_command with
    | none => simp [Meter.init, hcc]
    | some pr =>
      cases hp : parseU64 (getStdout raw) with
      | ok v => simp [Meter.init, hcc, hp]
      | error e => simp [Meter.init, hcc, hp]

/-- C8: a widget whose command string has no whitespace-delimited token
never constructs a command, raises no error and leaves its parsed value
unchanged, for update and init of both widget kinds; an Indicator or
Meter starting from the zero default therefore keeps it forever. -/
theorem c8_empty_command_skip :
    (∀ (ind : Indicator) (now : Nat) (raw : String),
      rustSplitWhitespace ind.command = [] →
      constructCommand ind.command = none ∧
      (ind.update now raw).invoked = false ∧
      (ind.update now raw).ok = true ∧
      (ind.update now raw).state.value = ind.value ∧
      (ind.update now raw).state.reading = ind.reading ∧
      (ind.init raw).invoked = false ∧
      (ind.init raw).ok = true ∧
      (ind.init raw).state = ind) ∧
    (∀ (m : Meter) (now : Nat) (raw : String),
      rustSplitWhitespace m.value_command = [] →
      rustSplitWhitespace m.max_command = [] →
      constructCommand m.value_command = none ∧
      constructCommand m.max_command = none ∧
      (m.update now raw).invoked = false ∧
      (m.update now raw).ok = true ∧
      (m.update now raw).state.current_value = m.current_value ∧
      (m.update now raw).state.max_value = m.max_value ∧
      (m.init raw).invoked = false ∧
      (m.init raw).ok = true ∧
      (m.init raw).state = m) := by
  constructor
  · intro ind now raw h
    have hcc : constructCommand ind.command = none := by
      unfold constructCommand
      rw [h]
    refine ⟨hcc, ?_⟩
    cases hf : shouldRefresh ind.timer ind.frequency now with
    | false => simp [Indicator.update, Indicator.init, hf, hcc]
    | true => simp [Indicator.update, Indicator.init, hf, hcc]
  · intro m now raw hv hm
    have hccv : constructCommand m.value_command = none := by
      unfold constructCommand
      rw [hv]
    have hccm : constructCommand m.max_command = none := by
      unfold constructCommand
      rw [hm]
    refine ⟨hccv, hccm, ?_⟩
    cases hf : shouldRefresh m.timer m.frequency now with
    | false => simp [Meter.update, Meter.init, hf, hccv, hccm]
    | true => simp [Meter.update, Meter.init, hf, hccv, hccm]

/-- C8 witness: the empty command string on a concrete indicator and a
concrete meter spawns nothing, returns Ok and keeps the default value. -/
theorem c8_witness :
    constructCommand "" = none ∧
    (indC8.update 0 "true").invoked = false ∧
    (indC8.update 0 "true").ok = true ∧
    (indC8.update 0 "true").state.value = false ∧
    (mC8.update 0 "512").invoked = false ∧
    (mC8.update 0 "512").state.current_value = 0 ∧
    (mC8.init "512").state = mC8 := by
  have hi := c8_empty_command_skip.1 indC8 0 "true" (by decide)
  have hm := c8_empty_command_skip.2 mC8 0 "512" (by decide) (by decide)
  obtain ⟨h1, h2, h3, h4, h5, h6, h7, h8, h9⟩ := hm
  exact ⟨hi.1, hi.2.1, hi.2.2.1, hi.2.2.2.1, h3, h5, h9⟩

-- ---------------------------------------------------------------------
-- Scheduler helper lemmas shared by the timing claims
-- ---------------------------------------------------------------------

/-- Scheduler check with a recorded timestamp, as an arithmetic bound:
elapsed.as_secs() > frequency holds exactly when at least
(frequency + 1) whole seconds have elapsed. -/
lemma shouldRefresh_some_true_iff (t f now : Nat) :
    shouldRefresh (some t) f now = true ↔
      NANOS_PER_SEC * (f + 1) ≤ now - t := by
  unfold shouldRefresh durationAsSecs NANOS_PER_SEC
  simp only [decide_eq_true_eq]
  omega

/-- An update whose scheduler check fails returns the state unchanged,
spawns nothing and succeeds (Indicator). -/
lemma indicator_update_not_fired (ind : Indicator) (now : Nat)
    (raw : String) (hs : shouldRefresh ind.timer ind.frequency now = false) :
    ind.update now raw = ⟨ind, false, true⟩ := by
  simp [Indicator.update, hs]

/-- An update whose scheduler check fails returns the state unchanged,
spawns nothing and succeeds (Meter). -/
lemma meter_update_not_fired (m : Meter) (now : Nat) (raw : String)
    (hs : shouldRefresh m.timer m.frequency now = false) :
    m.update now raw = ⟨m, false, true⟩ := by
  simp [Meter.update, hs]

/-- A fired update records the current instant in the timer, whatever
the command and parse outcome (Indicator). -/
lemma indicator_update_fired_timer (ind : Indicator) (now : Nat)
    (raw : String) (hs : shouldRefresh ind.timer ind.frequency now = true) :
    (ind.update now raw).state.timer = some now := by
  cases hcc : constructCommand ind.command with
  | none => simp [Indicator.update, hs, hcc]
  | some pr =>
    cases hp : parseBool (getStdout raw) with
    | ok v => simp [Indicator.update, hs, hcc, hp]
    | error e => simp [Indicator.update, hs, hcc, hp]

/-- A fired update records the current instant in the timer, whatever
the command and parse outcome (Meter). -/
lemma meter_update_fired_timer (m : Meter) (now : Nat) (raw : String)
    (hs : shouldRefresh m.timer m.frequency now = true) :
    (m.update now raw).state.timer = some now := by
  cases hcc : constructCommand m.value_command with
  | none => simp [Meter.update, hs, hcc]
  | some pr =>
    cases hp : parseU64 (getStdout raw) with
    | ok v => simp [Meter.update, hs, hcc, hp]
    | error e => simp [Meter.update, hs, hcc, hp]

/-- When the command tokenizes, an update spawns it exactly when the
scheduler check passes (Indicator). -/
lemma indicator_update_invoked_iff (ind : Indicator) (now : Nat)
    (raw : String) (h : (constructCommand ind.command).isSome = true) :
    (ind.update now raw).invoked = true ↔
      shouldRefresh ind.timer ind.frequency now = true := by
  obtain ⟨pr, hpr⟩ := Option.isSome_iff_exists.mp h
  cases hs : shouldRefresh ind.timer ind.frequency now with
  | false => simp [Indicator.update, hs]
  | true =>
    cases hp : parseBool (getStdout raw) with
    | ok v => simp [Indicator.update, hs, hpr, hp]
    | error e => simp [Indicator.update, hs, hpr, hp]

/-- When the command tokenizes, an update spawns it exactly when the
scheduler check passes (Meter). -/
lemma meter_update_invoked_iff (m : Meter) (now : Nat) (raw : String)
    (h : (constructCommand m.value_command).isSome = true) :
    (m.update now raw).invoked = true ↔
      shouldRefresh m.timer m.frequency now = true := by
  obtain ⟨pr, hpr⟩ := Option.isSome_iff_exists.mp h
  cases hs : shouldRefresh m.timer m.frequency now with
  | false => simp [Meter.update, hs]
  | true =>
    cases hp : parseU64 (getStdout raw) with
    | ok v => simp [Meter.update, hs, hpr, hp]
    | error e => simp [Meter.update, hs, hpr, hp]

/-- Indicator::init never touches the timer. -/
lemma indicator_init_timer (ind : Indicator) (raw : String) :
    (ind.init raw).state.timer = ind.timer := by
  cases hcc : constructCommand ind.command with
  | none => simp [Indicator.init, hcc]
  | some pr =>
    cases hsp : rustSplit (fun c => c = ' ') (getStdout raw) with
    | nil => simp [Indicator.init, hcc, hsp]
    | cons v rest =>
      cases hp : parseBool v with
      | ok b => simp [Indicator.init, hcc, hsp, hp]
      | error e => simp [Indicator.init, hcc, hsp, hp]

/-- Meter::init never touches the timer. -/
lemma meter_init_timer (m : Meter) (raw : String) :
    (m.init raw).state.timer = m.timer := by
  cases hcc : constructCommand m.max_command with
  | none => simp [Meter.init, hcc]
  | some pr =>
    cases hp : parseU64 (getStdout raw) with
    | ok v => simp [Meter.init, hcc, hp]
    | error e => simp [Meter.init, hcc, hp]

-- ---------------------------------------------------------------------
-- Timing claims
-- ---------------------------------------------------------------------

/-- C5: with interval N and recorded timestamp t, an update at exactly N
elapsed seconds does not fire and leaves the widget untouched; at
exactly N + 1 elapsed seconds the scheduler fires and, when a command is
configured, the command is spawned. -/
theorem c5_boundary_inclusive :
    ∀ N t now : Nat,
      (now - t = N * NANOS_PER_SEC →
        shouldRefresh (some t) N now = false ∧
        (∀ (ind : Indicator) (raw : String),
          ind.frequency = N → ind.timer = some t →
          (ind.update now raw).invoked = false ∧
          (ind.update now raw).state = ind) ∧
        (∀ (m : Meter) (raw : String),
          m.frequency = N → m.timer = some t →
          (m.update now raw).invoked = false ∧
          (m.update now raw).state = m)) ∧
      (now - t = (N + 1) * NANOS_PER_SEC →
        shouldRefresh (some t) N now = true ∧
        (∀ (ind : Indicator) (raw : String),
          ind.frequency = N → ind.timer = some t →
          (constructCommand ind.command).isSome = true →
          (ind.update now raw).invoked = true) ∧
        (∀ (m : Meter) (raw : String),
          m.frequency = N → m.timer = some t →
          (constructCommand m.value_command).isSome = true →
          (m.update now raw).invoked = true)) := by
  intro N t now
  constructor
  · intro h
    have hs : shouldRefresh (some t) N now = false := by
      rw [Bool.eq_false_iff]
      intro hc
      have := (shouldRefresh_some_true_iff t N now).mp hc
      unfold NANOS_PER_SEC at this h
      omega
    refine ⟨hs, ?_, ?_⟩
    · intro ind raw hf ht
      have hs2 : shouldRefresh ind.timer ind.frequency now = false := by
        rw [ht, hf]; exact hs
      rw [indicator_update_not_fired ind now raw hs2]
      exact ⟨rfl, rfl⟩
    · intro m raw hf ht
      have hs2 : shouldRefresh m.timer m.frequency now = false := by
        rw [ht, hf]; exact hs
      rw [meter_update_not_fired m now raw hs2]
      exact ⟨rfl, rfl⟩
  · intro h
    have hs : shouldRefresh (some t) N now = true := by
      rw [shouldRefresh_some_true_iff]
      unfold NANOS_PER_SEC at h ⊢
      omega
    refine ⟨hs, ?_, ?_⟩
    · intro ind raw hf ht hcmd
      have hs2 : shouldRefresh ind.timer ind.frequency now = true := by
        rw [ht, hf]; exact hs
      exact (indicator_update_invoked_iff ind now raw hcmd).mpr hs2
    · intro m raw hf ht hcmd
      have hs2 : shouldRefresh m.timer m.frequency now = true := by
        rw [ht, hf]; exact hs
      exact (meter_update_invoked_iff m now raw hcmd).mpr hs2

/-- Concrete indicator with interval 5 and a timestamp recorded at 0. -/
def indC5 : Indicator :=
  ⟨none, "batcheck", 5, false, false, false, "", some 0⟩

/-- C5 witness: interval 5, timestamp 0: update at 5 elapsed seconds
does not spawn, at 6 elapsed seconds it does. -/
theorem c5_witness :
    (indC5.update (5 * NANOS_PER_SEC) "true").invoked = false ∧
    (indC5.update (6 * NANOS_PER_SEC) "true").invoked = true := by
  have h1 := (c5_boundary_inclusive 5 0 (5 * NANOS_PER_SEC)).1 (by omega)
  have h2 := (c5_boundary_inclusive 5 0 (6 * NANOS_PER_SEC)).2 (by omega)
  exact ⟨(h1.2.1 indC5 "true" rfl rfl).1,
    h2.2.1 indC5 "true" rfl rfl (by decide)⟩

/-- C6: with no recorded timestamp the scheduler check passes for every
interval, so the first update records the current instant and, when a
command is configured, spawns it. -/
theorem c6_first_update_fires :
    ∀ frequency now : Nat,
      shouldRefresh none frequency now = true ∧
      (∀ (ind : Indicator) (raw : String), ind.timer = none →
        (constructCommand ind.command).isSome = true →
        (ind.update now raw).invoked = true ∧
        (ind.update now raw).state.timer = some now) ∧
      (∀ (m : Meter) (raw : String), m.timer = none →
        (constructCommand m.value_command).isSome = true →
        (m.update now raw).invoked = true ∧
        (m.update now raw).state.timer = some now) := by
  intro f now
  refine ⟨rfl, ?_, ?_⟩
  · intro ind raw ht hcmd
    have hs : shouldRefresh ind.timer ind.frequency now = true := by
      rw [ht]; rfl
    exact ⟨(indicator_update_invoked_iff ind now raw hcmd).mpr hs,
      indicator_update_fired_timer ind now raw hs⟩
  · intro m raw ht hcmd
    have hs : shouldRefresh m.timer m.frequency now = true := by
      rw [ht]; rfl
    exact ⟨(meter_update_invoked_iff m now raw hcmd).mpr hs,
      meter_update_fired_timer m now raw hs⟩

/-- Concrete fresh indicator with a huge interval. -/
def indC6 : Indicator :=
  ⟨none, "batcheck", 1000000, false, false, false, "", none⟩

/-- C6 witness: a fresh indicator with interval 1000000 spawns its
command on the very first update. -/
theorem c6_witness :
    (indC6.update 0 "true").invoked = true ∧
    (indC6.update 0 "true").state.timer = some 0 :=
  (c6_first_update_fires 1000000 0).2.1 indC6 "true" rfl (by decide)

/-- C2 counterexample: interval 0, timestamp recorded at instant 0, an
update one nanosecond later (nonzero elapsed time) does not spawn the
command and leaves the state unchanged, because as_secs truncates the
elapsed duration to 0 whole seconds. -/
theorem c2_counterexample :
    (1 : Nat) ≠ 0 ∧ indC2.frequency = 0 ∧ indC2.timer = some 0 ∧
    (indC2.update 1 "true").invoked = false ∧
    (indC2.update 1 "true").state = indC2 := by decide

/-- C2 amended: with interval 0 and a recorded timestamp, an update
spawns the configured command exactly when at least one full second has
elapsed since the timestamp. -/
theorem c2_interval_zero :
    (∀ (ind : Indicator) (t now : Nat) (raw : String),
      ind.frequency = 0 → ind.timer = some t →
      (constructCommand ind.command).isSome = true →
      ((ind.update now raw).invoked = true ↔ NANOS_PER_SEC ≤ now - t)) ∧
    (∀ (m : Meter) (t now : Nat) (raw : String),
      m.frequency = 0 → m.timer = some t →
      (constructCommand m.value_command).isSome = true →
      ((m.update now raw).invoked = true ↔ NANOS_PER_SEC ≤ now - t)) := by
  constructor
  · intro ind t now raw hf ht hcmd
    rw [indicator_update_invoked_iff ind now raw hcmd, ht, hf,
      shouldRefresh_some_true_iff]
    unfold NANOS_PER_SEC
    omega
  · intro m t now raw hf ht hcmd
    rw [meter_update_invoked_iff m now raw hcmd, ht, hf,
      shouldRefresh_some_true_iff]
    unfold NANOS_PER_SEC
    omega

/-- C2 witness: the interval-0 indicator spawns its command two full
seconds after the recorded timestamp. -/
theorem c2_witness :
    (indC2.update (2 * NANOS_PER_SEC) "true").invoked = true :=
  (c2_interval_zero.1 indC2 0 (2 * NANOS_PER_SEC) "true" rfl rfl
    (by decide)).mpr (by omega)

/-- Concrete fresh indicator with interval 5 and a parseable command. -/
def indC4 : Indicator :=
  ⟨none, "batcheck", 5, false, false, false, "", none⟩

/-- C4 counterexample: an update whose output fails to parse still
records the timestamp (it is set before the command runs), and the next
check one nanosecond later is throttled rather than treated as
overdue. -/
theorem c4_counterexample :
    (indC4.update 0 "bogus").ok = false ∧
    (indC4.update 0 "bogus").state.timer = some 0 ∧
    shouldRefresh (indC4.update 0 "bogus").state.timer indC4.frequency 1 =
      false := by decide

/-- C4 amended: the timestamp is absent until the first update call on
which the scheduler fires; init never sets it; a fired update records
the current instant before command construction and parsing, so a
ParseError or an empty command string still records it, while an update
on which the scheduler does not fire leaves it unchanged. -/
theorem c4_timer_stamping :
    (∀ (ind : Indicator) (now : Nat) (raw : String),
      shouldRefresh ind.timer ind.frequency now = true →
      (ind.update now raw).state.timer = some now) ∧
    (∀ (ind : Indicator) (now : Nat) (raw : String),
      shouldRefresh ind.timer ind.frequency now = false →
      (ind.update now raw).state.timer = ind.timer) ∧
    (∀ (ind : Indicator) (raw : String),
      (ind.init raw).state.timer = ind.timer) ∧
    (∀ (m : Meter) (now : Nat) (raw : String),
      shouldRefresh m.timer m.frequency now = true →
      (m.update now raw).state.timer = some now) ∧
    (∀ (m : Meter) (now : Nat) (raw : String),
      shouldRefresh m.timer m.frequency now = false →
      (m.update now raw).state.timer = m.timer) ∧
    (∀ (m : Meter) (raw : String),
      (m.init raw).state.timer = m.timer) := by
  refine ⟨?_, ?_, ?_, ?_, ?_, ?_⟩
  · intro ind now raw hs
    exact indicator_update_fired_timer ind now raw hs
  · intro ind now raw hs
    rw [indicator_update_not_fired ind now raw hs]
  · intro ind raw
    exact indicator_init_timer ind raw
  · intro m now raw hs
    exact meter_update_fired_timer m now raw hs
  · intro m now raw hs
    rw [meter_update_not_fired m now raw hs]
  · intro m raw
    exact meter_init_timer m raw

/-- C4 witness: the fresh indicator fires on its first update and the
timestamp is recorded even though the output nonsense fails to parse. -/
theorem c4_witness :
    (indC4.update 7 "nonsense").state.timer = some 7 ∧
    (indC4.update 7 "nonsense").ok = false :=
  ⟨c4_timer_stamping.1 indC4 7 "nonsense" rfl, by decide⟩

/-- C1 counterexample: output 1 charging makes init fail with a
ParseError (1 is not a Rust boolean literal), leaving value false and
the trailing text empty, and output 0 makes update fail likewise; the
claim instead promises state true with trailing text charging, and
state false, respectively. -/
theorem c1_counterexample :
    (indC1.init "1 charging").ok = false ∧
    (indC1.init "1 charging").state.value = false ∧
    (indC1.init "1 charging").state.reading = "" ∧
    (indC1.update 0 "0").ok = false ∧
    (indC1.update 0 "0").state.value = false := by decide

/-- C1 amended: in init the boolean state is parsed from the first
piece of the trimmed output split on single spaces, accepting exactly
the literals true and false, and the remaining pieces concatenated
without separators become the trailing text; update instead parses the
entire trimmed output as a boolean and leaves the trailing text
unchanged. -/
theorem c1_parse :
    (∀ (ind : Indicator) (raw v : String) (rest : List String) (b : Bool),
      (constructCommand ind.command).isSome = true →
      rustSplit (fun c => c = ' ') (getStdout raw) = v :: rest →
      parseBool v = Except.ok b →
      (ind.init raw).state.value = b ∧
      (ind.init raw).state.reading = String.join rest ∧
      (ind.init raw).ok = true) ∧
    (∀ (ind : Indicator) (now : Nat) (raw : String) (b : Bool),
      shouldRefresh ind.timer ind.frequency now = true →
      (constructCommand ind.command).isSome = true →
      parseBool (getStdout raw) = Except.ok b →
      (ind.update now raw).state.value = b ∧
      (ind.update now raw).state.reading = ind.reading ∧
      (ind.update now raw).ok = true) := by
  constructor
  · intro ind raw v rest b hcmd hsplit hparse
    obtain ⟨pr, hpr⟩ := Option.isSome_iff_exists.mp hcmd
    simp [Indicator.init, hpr, hsplit, hparse]
  · intro ind now raw b hs hcmd hparse
    obtain ⟨pr, hpr⟩ := Option.isSome_iff_exists.mp hcmd
    simp [Indicator.update, hs, hpr, hparse]

/-- C1 witness: output true charging gives init state true with
trailing text charging, output false gives state false with empty
trailing text, and update parses the single token true. -/
theorem c1_witness :
    (indC1.init "true charging").state.value = true ∧
    (indC1.init "true charging").state.reading = "charging" ∧
    (indC1.init "false").state.value = false ∧
    (indC1.init "false").state.reading = "" ∧
    (indC1.update 0 "true").state.value = true := by
  have h1 := c1_parse.1 indC1 "true charging" "true" ["charging"] true
    (by decide) (by decide) rfl
  have h2 := c1_parse.1 indC1 "false" "false" [] false
    (by decide) (by decide) rfl
  have h3 := c1_parse.2 indC1 0 "true" true rfl (by decide) rfl
  exact ⟨h1.1, h1.2.1, h2.1, h2.2.1, h3.1⟩
